import Mathlib

/-!
Shallow embedding of the order lifecycle / payment reconciliation core of
the KhawwWS backend (src/server.js, plus the older duplicate order-creation
flow in src/unnamed/part_000).  Money amounts are modelled as rationals;
database rows as records; each HTTP handler as a pure function from the
fetched row and its inputs to the final row, the emitted notifications,
the in-process timer map and the response.
-/

/-- Lifecycle status values stored in the orders.status column. -/
inductive OrderStatus
  | payment_pending
  | pending
  | preparing
  | ready
  | on_the_way
  | delivered
  | cancelled
  | rejected
  | pending_restaurant_online
  deriving DecidableEq, Repr

/-- Values stored in the orders.payment_status column. -/
inductive PaymentStatus
  | pending
  | success
  | failed
  | cancelled
  deriving DecidableEq, Repr

/-- The columns of an orders row that the reconciliation core reads or writes. -/
structure Order where
  id : String
  restaurant_uid : String
  customer_uid : String
  status : OrderStatus
  payment_status : PaymentStatus
  total_price : ℚ
  rejection_reason : Option String
  auto_rejected : Bool
  deriving DecidableEq, Repr

/-- One emitted side effect: a socket event or an FCM push, tagged with the
target channel.  The restaurant-targeted constructors correspond to
io.to(restaurant_...) emits and sendFCMNotification calls in server.js. -/
inductive Notice
  | restaurantNewOrder (uid orderId : String)
  | restaurantFCM (uid orderId : String)
  | restaurantAccepted (uid orderId : String)
  | restaurantRejected (uid orderId : String)
  | restaurantAutoRejected (uid orderId : String)
  | customerStatusUpdated (uid orderId : String)
  deriving DecidableEq, Repr

/-- Whether a notice targets the restaurant channel (socket room or push). -/
def Notice.isRestaurant : Notice → Bool
  | .customerStatusUpdated _ _ => false
  | _ => true

/-- One gateway payment-attempt record as returned by
GET https://api.cashfree.com/pg/orders/id/payments. -/
structure PaymentAttempt where
  payment_status : String
  payment_amount : ℚ
  deriving DecidableEq, Repr

/-- The distinct JSON responses of POST /api/orders/:orderId/verify-payment
(server.js lines 1264-1521), order-found cases only. -/
inductive VResp
  | alreadyVerified
  | alreadyFailed
  | noSuccess
  | amountMismatch
  | verified
  deriving DecidableEq, Repr

/-- Outcome of one verify-payment call: final order row, emitted notices,
whether a response-window timer was started, and the response. -/
structure VerifyResult where
  order : Order
  notices : List Notice
  timerStarted : Bool
  response : VResp
  deriving DecidableEq, Repr

/-- POST /api/orders/:orderId/verify-payment (server.js lines 1264-1521),
given the fetched order row and the gateway's payment-attempt list.
The handler never consults the restaurant's online flag or its preference
row, and never touches the orderTimers map. -/
def verifyPayment (order : Order) (payments : List PaymentAttempt) : VerifyResult :=
  if order.payment_status = PaymentStatus.success then
    { order := order, notices := [], timerStarted := false, response := VResp.alreadyVerified }
  else if order.payment_status = PaymentStatus.failed ∨
          order.payment_status = PaymentStatus.cancelled then
    { order := order, notices := [], timerStarted := false, response := VResp.alreadyFailed }
  else
    match payments.find? (fun p => p.payment_status = "SUCCESS") with
    | none =>
        { order := { order with status := OrderStatus.cancelled,
                                payment_status := PaymentStatus.failed }
          notices := [], timerStarted := false, response := VResp.noSuccess }
    | some p =>
        if |p.payment_amount - order.total_price| > 2/100 then
          { order := { order with status := OrderStatus.cancelled,
                                  payment_status := PaymentStatus.failed }
            notices := [], timerStarted := false, response := VResp.amountMismatch }
        else
          { order := { order with status := OrderStatus.pending,
                                  payment_status := PaymentStatus.success }
            notices := [Notice.restaurantNewOrder order.restaurant_uid order.id,
                        Notice.restaurantFCM order.restaurant_uid order.id]
            timerStarted := false, response := VResp.verified }

/-- Iterated verify-payment calls: the order row after n successive calls
against the same gateway attempt list. -/
def verifyIter (payments : List PaymentAttempt) : Nat → Order → Order
  | 0, o => o
  | n + 1, o => verifyIter payments n (verifyPayment o payments).order

/-- One field slot of the webhook JSON payload under JavaScript truthiness:
an absent field and an empty string are both falsy. -/
def truthyS : Option String → Option String
  | some s => if s = "" then none else some s
  | none => none

/-- Numeric payload field under JavaScript truthiness: absent and 0 are falsy. -/
def truthyQ : Option ℚ → Option ℚ
  | some q => if q = 0 then none else some q
  | none => none

/-- Whether the first character list starts with the second. -/
def listStartsWith : List Char → List Char → Bool
  | _, [] => true
  | [], _ :: _ => false
  | a :: as, b :: bs => a == b && listStartsWith as bs

/-- Removal of the first occurrence of pat from a character list. -/
def removeFirstOcc (pat : List Char) : List Char → List Char
  | [] => []
  | c :: cs =>
    if listStartsWith (c :: cs) pat then (c :: cs).drop pat.length
    else c :: removeFirstOcc pat cs

/-- JavaScript String.prototype.replace with a string pattern and empty
replacement: removes the first occurrence of pat only. -/
def replaceFirst (s pat : String) : String :=
  String.mk (removeFirstOcc pat.data s.data)

/-- The webhook body fields that the handler's shape-sniffing inspects
(server.js lines 1616-1645), flattened: field data_order_order_id stands for
payload.data.order.order_id, and so on. -/
structure WebhookPayload where
  data_order_order_id : Option String := none
  order_order_id : Option String := none
  top_order_id : Option String := none
  data_payment_payment_status : Option String := none
  payment_payment_status : Option String := none
  top_payment_status : Option String := none
  data_order_order_status : Option String := none
  data_payment_payment_amount : Option ℚ := none
  payment_payment_amount : Option ℚ := none
  data_order_order_amount : Option ℚ := none
  deriving DecidableEq, Repr

/-- Order-id extraction, first truthy shape wins, then the order_ marker is
stripped from the first occurrence (server.js lines 1616-1623). -/
def extractOrderId (p : WebhookPayload) : Option String :=
  (truthyS p.data_order_order_id <|> truthyS p.order_order_id <|>
    truthyS p.top_order_id).map (fun s => replaceFirst s "order_")

/-- Payment-status extraction, first truthy shape wins
(server.js lines 1626-1635). -/
def extractPaymentStatus (p : WebhookPayload) : Option String :=
  truthyS p.data_payment_payment_status <|> truthyS p.payment_payment_status <|>
    truthyS p.top_payment_status <|> truthyS p.data_order_order_status

/-- Payment-amount extraction, first truthy shape wins
(server.js lines 1638-1645). -/
def extractPaymentAmount (p : WebhookPayload) : Option ℚ :=
  truthyQ p.data_payment_payment_amount <|> truthyQ p.payment_payment_amount <|>
    truthyQ p.data_order_order_amount

/-- The row the webhook handler reads about the restaurant: ro.is_online = 1
and COALESCE(rp.order_notifications, 1) = 1 (server.js lines 1748-1754). -/
structure RestaurantInfo where
  is_online : Bool
  order_notifications : Bool
  deriving DecidableEq, Repr

/-- Result shape consumed from validatePaymentSecurity by the webhook
handler: validation.valid and validation.alreadyProcessed. -/
structure SecurityValidation where
  valid : Bool
  alreadyProcessed : Bool
  deriving DecidableEq, Repr

/-- Modelled from the spec: validatePaymentSecurity is called by the webhook
handler (server.js line 1682) but its definition is not among the provided
source files.  Spec 4.4 step 3: when an amount is present, independently
validate it against the order's stored total with tolerance 0.02 rupees
before trusting it; an order whose payment_status is already success counts
as already processed. -/
def validatePaymentSecurity (order : Order) (paymentAmount : ℚ) : SecurityValidation :=
  { valid := |paymentAmount - order.total_price| ≤ 2/100
    alreadyProcessed := order.payment_status = PaymentStatus.success }

/-- A JavaScript Map key under SameValueZero equality: the string "5" and the
number 5 are distinct keys. -/
inductive JKey
  | str (s : String)
  | num (n : Int)
  deriving DecidableEq, Repr

/-- The global orderTimers map (server.js line 146), as its list of entries:
key and the scheduled delay of the pending auto-reject callback. -/
abbrev TimerMap := List (JKey × Nat)

/-- JavaScript Map.prototype.has. -/
def mapHas (m : TimerMap) (k : JKey) : Bool :=
  m.any (fun e => e.1 == k)

/-- JavaScript Map.prototype.delete (entry removal part). -/
def mapDelete (m : TimerMap) (k : JKey) : TimerMap :=
  m.filter (fun e => e.1 != k)

/-- JavaScript Map.prototype.set. -/
def mapSet (m : TimerMap) (k : JKey) (v : Nat) : TimerMap :=
  mapDelete m k ++ [(k, v)]

/-- The distinct acknowledgment bodies of POST /api/cashfree/webhook for a
payload whose referenced order exists; every one is sent with HTTP 200. -/
inductive WResp
  | noOrderId
  | alreadyProcessed
  | processed (paymentStatus : PaymentStatus) (restaurantNotified : Bool)
  deriving DecidableEq, Repr

/-- Outcome of one webhook delivery: final order row, emitted notices, the
timer map afterwards, and the acknowledgment. -/
structure WebhookResult where
  order : Order
  notices : List Notice
  timers : TimerMap
  response : WResp
  deriving DecidableEq, Repr

/-- The webhook's status mapping (server.js lines 1674-1724): from the
extracted payment status and amount, the payment_status and status values
to write and the shouldNotifyRestaurant flag; none models the early
acknowledgment when validation reports the order as already processed. -/
def webhookStatusMapping (order : Order) (ps : Option String) (amt : Option ℚ) :
    Option (PaymentStatus × OrderStatus × Bool) :=
  if ps = some "SUCCESS" ∨ ps = some "PAID" then
    match amt with
    | some a =>
      let v := validatePaymentSecurity order a
      if ¬ v.valid then
        if v.alreadyProcessed then none
        else some (PaymentStatus.failed, OrderStatus.cancelled, false)
      else some (PaymentStatus.success, OrderStatus.pending, true)
    | none => some (PaymentStatus.success, OrderStatus.pending, true)
  else if ps = some "FAILED" then
    some (PaymentStatus.failed, OrderStatus.cancelled, false)
  else if ps = some "CANCELLED" then
    some (PaymentStatus.cancelled, OrderStatus.cancelled, false)
  else
    some (PaymentStatus.pending, OrderStatus.payment_pending, false)

/-- The webhook's update-and-notify step (server.js lines 1730-1817) once
the status mapping has produced the values (dbPS, dbOS, notify) to write:
the conditional UPDATE (observed as a change exactly when it alters
payment_status or status, matching the affectedRows > 0 check), the
restaurant online/preference gate, the 90 second auto-reject timer keyed by
the extracted order-id string, and the notifications. -/
def webhookApply (order : Order) (rinfo : RestaurantInfo) (timers : TimerMap)
    (oid : String) (dbPS : PaymentStatus) (dbOS : OrderStatus) (notify : Bool) :
    WebhookResult :=
  let o1 : Order := { order with payment_status := dbPS, status := dbOS }
  let changed : Bool := dbPS != order.payment_status || dbOS != order.status
  if changed then
    if notify ∧ dbPS = PaymentStatus.success then
      if rinfo.is_online ∧ rinfo.order_notifications then
        { order := o1
          notices := [Notice.restaurantNewOrder o1.restaurant_uid oid,
                      Notice.restaurantFCM o1.restaurant_uid oid,
                      Notice.customerStatusUpdated o1.customer_uid oid]
          timers := mapSet timers (JKey.str oid) 90
          response := WResp.processed dbPS notify }
      else
        { order := { o1 with status := OrderStatus.pending_restaurant_online }
          notices := [Notice.customerStatusUpdated o1.customer_uid oid]
          timers := timers
          response := WResp.processed dbPS notify }
    else
      { order := o1
        notices := [Notice.customerStatusUpdated o1.customer_uid oid]
        timers := timers
        response := WResp.processed dbPS notify }
  else
    { order := o1, notices := [], timers := timers
      response := WResp.processed dbPS notify }

/-- POST /api/cashfree/webhook (server.js lines 1571-1828), given the parsed
payload, the order row the extracted id resolves to, the restaurant's
online/preference row and the current timer map: id extraction, the
already-processed guard, the status mapping, then the update-and-notify
step. -/
def webhookPaymentEvent (payload : WebhookPayload) (order : Order)
    (rinfo : RestaurantInfo) (timers : TimerMap) : WebhookResult :=
  match extractOrderId payload with
  | none => { order := order, notices := [], timers := timers, response := WResp.noOrderId }
  | some oid =>
    if order.payment_status = PaymentStatus.success then
      { order := order, notices := [], timers := timers, response := WResp.alreadyProcessed }
    else
      match webhookStatusMapping order (extractPaymentStatus payload)
              (extractPaymentAmount payload) with
      | none =>
          { order := order, notices := [], timers := timers, response := WResp.alreadyProcessed }
      | some (dbPS, dbOS, notify) =>
          webhookApply order rinfo timers oid dbPS dbOS notify

/-- Value of one decimal digit character. -/
def digitVal (c : Char) : Option Nat :=
  if c.isDigit then some (c.toNat - 48) else none

/-- Accumulating decimal parse of a character list; none on any non-digit. -/
def digitsToNatAux : Nat → List Char → Option Nat
  | acc, [] => some acc
  | acc, c :: cs =>
    match digitVal c with
    | some d => digitsToNatAux (acc * 10 + d) cs
    | none => none

/-- JavaScript Number.parseInt on a route parameter, restricted to the plain
decimal strings that occur as order ids; a non-numeric string yields none
(NaN, which matches no map key set by this program). -/
def jsParseInt (s : String) : Option Int :=
  if s.data = [] then none
  else (digitsToNatAux 0 s.data).map Int.ofNat

/-- The timer-clearing step shared by the accept and reject handlers
(server.js lines 1933-1938 and 2008-2013): the map is queried and cleared
at the numeric key Number.parseInt(orderId). -/
def clearOrderTimer (timers : TimerMap) (orderId : String) : TimerMap :=
  match jsParseInt orderId with
  | some n =>
      if mapHas timers (JKey.num n) then mapDelete timers (JKey.num n) else timers
  | none => timers

/-- Outcome of the auto-reject callback: final order row, emitted notices
and the timer map afterwards. -/
structure AutoRejectResult where
  order : Order
  notices : List Notice
  timers : TimerMap
  deriving DecidableEq, Repr

/-- autoRejectOrder (server.js lines 149-183): the scheduled callback
re-fetches the order with WHERE status = pending; when no longer pending it
returns without any write, otherwise it marks the order rejected with the
system reason and the auto_rejected flag, notifies the restaurant and the
customer and deletes its own (string-keyed) timer entry. -/
def autoRejectOrder (order : Order) (timers : TimerMap) : AutoRejectResult :=
  if order.status = OrderStatus.pending then
    { order := { order with
                  status := OrderStatus.rejected
                  rejection_reason := some "Order was not accepted within the time limit"
                  auto_rejected := true }
      notices := [Notice.restaurantAutoRejected order.restaurant_uid order.id,
                  Notice.customerStatusUpdated order.customer_uid order.id]
      timers := mapDelete timers (JKey.str order.id) }
  else
    { order := order, notices := [], timers := timers }

/-- Outcome of a successful accept or reject action. -/
structure ActionResult where
  order : Order
  timers : TimerMap
  notices : List Notice
  deriving DecidableEq, Repr

/-- PUT /api/orders/:id/accept (server.js lines 1905-1969): requires the
order to belong to the caller and to be in status pending; runs the
timer-clearing step, sets status preparing and notifies both parties.
none models the 404 response. -/
def acceptOrder (order : Order) (restaurant_uid : String) (timers : TimerMap) :
    Option ActionResult :=
  if order.restaurant_uid = restaurant_uid ∧ order.status = OrderStatus.pending then
    some { order := { order with status := OrderStatus.preparing }
           timers := clearOrderTimer timers order.id
           notices := [Notice.restaurantAccepted restaurant_uid order.id,
                       Notice.customerStatusUpdated order.customer_uid order.id] }
  else none

/-- PUT /api/orders/:id/reject (server.js lines 1972-2050): additionally
requires a non-empty rejection reason; stores the trimmed reason with
auto_rejected = false.  none models the 400 and 404 responses. -/
def rejectOrder (order : Order) (restaurant_uid : String) (reason : String)
    (timers : TimerMap) : Option ActionResult :=
  if reason.trim = "" then none
  else if order.restaurant_uid = restaurant_uid ∧ order.status = OrderStatus.pending then
    some { order := { order with
                       status := OrderStatus.rejected
                       rejection_reason := some reason.trim
                       auto_rejected := false }
           timers := clearOrderTimer timers order.id
           notices := [Notice.restaurantRejected restaurant_uid order.id,
                       Notice.customerStatusUpdated order.customer_uid order.id] }
  else none

/-- The status strings the generic update endpoint accepts
(server.js line 2089). -/
def genericStatuses : List String :=
  ["pending", "preparing", "ready", "on_the_way", "delivered", "cancelled", "rejected"]

/-- The column value written for each accepted status string. -/
def statusOfString (s : String) : OrderStatus :=
  if s = "pending" then OrderStatus.pending
  else if s = "preparing" then OrderStatus.preparing
  else if s = "ready" then OrderStatus.ready
  else if s = "on_the_way" then OrderStatus.on_the_way
  else if s = "delivered" then OrderStatus.delivered
  else if s = "cancelled" then OrderStatus.cancelled
  else OrderStatus.rejected

/-- The distinct outcomes of PUT /api/orders/:id/status for an existing
order: the 400 for a status outside the allowed set, the two 400 guards for
orders in status pending, and the successful write. -/
inductive UpdateResult
  | invalidStatus
  | pendingRestricted
  | useAcceptReject
  | updated (o : Order)
  deriving DecidableEq, Repr

/-- PUT /api/orders/:id/status (server.js lines 2087-2181): the requested
string must be in the allowed set; an order in status pending is refused
unless the target is preparing, rejected or cancelled, and refused again
for preparing and rejected (accept/reject endpoints must be used); every
other combination writes the target status unconditionally. -/
def updateOrderStatus (current : Order) (status : String) : UpdateResult :=
  if ¬ genericStatuses.contains status then UpdateResult.invalidStatus
  else if current.status = OrderStatus.pending ∧ status ≠ "preparing" ∧
          status ≠ "rejected" ∧ status ≠ "cancelled" then
    UpdateResult.pendingRestricted
  else if current.status = OrderStatus.pending ∧
          (status = "preparing" ∨ status = "rejected") then
    UpdateResult.useAcceptReject
  else
    UpdateResult.updated { current with status := statusOfString status }

/-- One submitted line of an order request: menu item reference and
quantity. -/
structure OrderItemReq where
  menu_item_id : Nat
  quantity : ℚ
  deriving DecidableEq, Repr

/-- The per-line authoritative-price loop shared by both order-creation
flows: each line's menu item must exist, belong to the restaurant, be
available and not soft-deleted (the menu function returns its price exactly
in that case); the prices times quantities are summed. -/
def calcSubtotal (menu : Nat → Option ℚ) : List OrderItemReq → Option ℚ
  | [] => some 0
  | it :: rest =>
    match menu it.menu_item_id, calcSubtotal menu rest with
    | some price, some s => some (price * it.quantity + s)
    | _, _ => none

/-- The failure modes of order creation; every one aborts the transaction,
so no order row and no order_items rows are persisted. -/
inductive CreateError
  | restaurantNotFound
  | restaurantOffline
  | customerNotFound
  | itemUnavailable
  | subtotalMismatch
  | totalMismatch
  deriving DecidableEq, Repr

/-- The persisted columns of a freshly created order that the claims
mention. -/
structure NewOrder where
  status : OrderStatus
  payment_status : PaymentStatus
  total_price : ℚ
  deriving DecidableEq, Repr

namespace MainFlow

/-- Fee policy of POST /api/orders in server.js line 1124. -/
def expectedDeliveryFee (cs : ℚ) : ℚ := if cs ≥ 500 then 0 else 0

/-- Fee policy of POST /api/orders in server.js line 1125. -/
def expectedPackingFee : ℚ := 0

/-- Fee policy of POST /api/orders in server.js line 1126. -/
def expectedGst (cs : ℚ) : ℚ := cs * (5/100)

/-- Fee policy of POST /api/orders in server.js line 1127. -/
def expectedPlatformFee : ℚ := 0

/-- Expected total of POST /api/orders in server.js line 1128. -/
def expectedTotal (cs : ℚ) : ℚ :=
  cs + expectedDeliveryFee cs + expectedPackingFee + expectedGst cs + expectedPlatformFee

/-- POST /api/orders (server.js lines 1014-1259): validation and insert.
Validates restaurant existence and online flag, customer existence, every
line item, the declared subtotal (tolerance 0.01) and the declared total
against the fee policy (tolerance 0.02); then inserts the order in
payment_pending with payment_status pending.  A thrown error rolls the
transaction back, so an error result means nothing was persisted.  After
the insert the gateway session is created; on gateway failure the persisted
order is committed as cancelled with payment_status failed. -/
def createOrder (restaurantExists restaurantOnline customerExists : Bool)
    (menu : Nat → Option ℚ) (items : List OrderItemReq)
    (subtotal : Option ℚ) (total_amount : ℚ) (gatewayOk : Bool) :
    Except CreateError NewOrder :=
  if ¬ restaurantExists then Except.error CreateError.restaurantNotFound
  else if ¬ restaurantOnline then Except.error CreateError.restaurantOffline
  else if ¬ customerExists then Except.error CreateError.customerNotFound
  else
    match calcSubtotal menu items with
    | none => Except.error CreateError.itemUnavailable
    | some cs =>
      if |cs - subtotal.getD 0| > 1/100 then Except.error CreateError.subtotalMismatch
      else if |expectedTotal cs - total_amount| > 2/100 then
        Except.error CreateError.totalMismatch
      else if gatewayOk then
        Except.ok { status := OrderStatus.payment_pending
                    payment_status := PaymentStatus.pending
                    total_price := total_amount }
      else
        Except.ok { status := OrderStatus.cancelled
                    payment_status := PaymentStatus.failed
                    total_price := total_amount }

end MainFlow

namespace LegacyFlow

/-- Fee policy of the duplicate POST /api/orders flow,
src/unnamed/part_000 line 1238. -/
def expectedDeliveryFee (cs : ℚ) : ℚ := if cs ≥ 500 then 0 else 20

/-- Fee policy of the duplicate flow, src/unnamed/part_000 line 1239. -/
def expectedPackingFee : ℚ := 5

/-- Fee policy of the duplicate flow, src/unnamed/part_000 line 1240. -/
def expectedGst (cs : ℚ) : ℚ := cs * (5/100)

/-- Fee policy of the duplicate flow, src/unnamed/part_000 line 1241. -/
def expectedPlatformFee (cs : ℚ) : ℚ := if cs ≥ 300 then 0 else 2

/-- Expected total of the duplicate flow, src/unnamed/part_000 line 1242. -/
def expectedTotal (cs : ℚ) : ℚ :=
  cs + expectedDeliveryFee cs + expectedPackingFee + expectedGst cs + expectedPlatformFee cs

/-- The duplicate POST /api/orders flow (src/unnamed/part_000 lines
1160-1371).  It differs from MainFlow.createOrder in its fee policy and in
not checking the restaurant's online flag. -/
def createOrder (restaurantExists customerExists : Bool)
    (menu : Nat → Option ℚ) (items : List OrderItemReq)
    (subtotal : Option ℚ) (total_amount : ℚ) (gatewayOk : Bool) :
    Except CreateError NewOrder :=
  if ¬ restaurantExists then Except.error CreateError.restaurantNotFound
  else if ¬ customerExists then Except.error CreateError.customerNotFound
  else
    match calcSubtotal menu items with
    | none => Except.error CreateError.itemUnavailable
    | some cs =>
      if |cs - subtotal.getD 0| > 1/100 then Except.error CreateError.subtotalMismatch
      else if |expectedTotal cs - total_amount| > 2/100 then
        Except.error CreateError.totalMismatch
      else if gatewayOk then
        Except.ok { status := OrderStatus.payment_pending
                    payment_status := PaymentStatus.pending
                    total_price := total_amount }
      else
        Except.ok { status := OrderStatus.cancelled
                    payment_status := PaymentStatus.failed
                    total_price := total_amount }

end LegacyFlow

/-- Concrete base order row used by witnesses and counterexamples. -/
def oBase : Order where
  id := "5"
  restaurant_uid := "r1"
  customer_uid := "c1"
  status := OrderStatus.payment_pending
  payment_status := PaymentStatus.pending
  total_price := 100
  rejection_reason := none
  auto_rejected := false

/-- Concrete webhook payload carrying only an order id. -/
def wIdOnly : WebhookPayload := { top_order_id := some "order_5" }

/-- Concrete restaurant row: online with order notifications enabled. -/
def riOn : RestaurantInfo := { is_online := true, order_notifications := true }

/-- C1: for an order whose payment_status is already success, a further
verify-payment call and a further webhook delivery each leave the order row
unchanged, emit no notification, and answer with their already-processed
success response; consequently after any further number n of verify calls,
n at least 1 included, the payment_status is still success. -/
theorem verify_webhook_idempotent_on_success (order : Order)
    (payments : List PaymentAttempt) (payload : WebhookPayload)
    (rinfo : RestaurantInfo) (timers : TimerMap)
    (h : order.payment_status = PaymentStatus.success)
    (hid : (extractOrderId payload).isSome) :
    verifyPayment order payments =
      { order := order, notices := [], timerStarted := false
        response := VResp.alreadyVerified } ∧
    webhookPaymentEvent payload order rinfo timers =
      { order := order, notices := [], timers := timers
        response := WResp.alreadyProcessed } ∧
    (∀ n, 1 ≤ n → (verifyIter payments n order).payment_status = PaymentStatus.success) := by
  have hv : verifyPayment order payments =
      { order := order, notices := [], timerStarted := false
        response := VResp.alreadyVerified } := by
    simp [verifyPayment, h]
  refine ⟨hv, ?_, ?_⟩
  · obtain ⟨oid, hoid⟩ := Option.isSome_iff_exists.mp hid
    simp [webhookPaymentEvent, hoid, h]
  · have hfix : ∀ n, verifyIter payments n order = order := by
      intro n
      induction n with
      | zero => rfl
      | succ k ih =>
        have hstep : (verifyPayment order payments).order = order := by rw [hv]
        calc verifyIter payments (k + 1) order
            = verifyIter payments k (verifyPayment order payments).order := rfl
          _ = verifyIter payments k order := by rw [hstep]
          _ = order := ih
    intro n _
    rw [hfix n, h]

/-- Witness for C1 at a concrete already-successful order. -/
theorem verify_webhook_idempotent_on_success_witness :
    verifyPayment { oBase with payment_status := PaymentStatus.success,
                               status := OrderStatus.pending } [] =
      { order := { oBase with payment_status := PaymentStatus.success,
                              status := OrderStatus.pending }
        notices := [], timerStarted := false, response := VResp.alreadyVerified } ∧
    webhookPaymentEvent wIdOnly
        { oBase with payment_status := PaymentStatus.success,
                     status := OrderStatus.pending } riOn [] =
      { order := { oBase with payment_status := PaymentStatus.success,
                              status := OrderStatus.pending }
        notices := [], timers := [], response := WResp.alreadyProcessed } ∧
    (∀ n, 1 ≤ n →
      (verifyIter [] n { oBase with payment_status := PaymentStatus.success,
                                    status := OrderStatus.pending }).payment_status =
        PaymentStatus.success) :=
  verify_webhook_idempotent_on_success
    { oBase with payment_status := PaymentStatus.success, status := OrderStatus.pending }
    [] wIdOnly riOn [] rfl (by decide)

/-- Concrete webhook payload reporting SUCCESS with amount 200. -/
def wMismatch : WebhookPayload :=
  { top_order_id := some "order_5", top_payment_status := some "SUCCESS"
    data_payment_payment_amount := some 200 }

/-- C2: a webhook whose extracted status is SUCCESS and whose extracted
amount differs from the stored total by more than 0.02 rupees leaves the
order cancelled with payment_status failed and emits no restaurant
notification.  The amount validation itself is spec-modelled, see
validatePaymentSecurity. -/
theorem webhook_amount_mismatch_cancels (payload : WebhookPayload) (order : Order)
    (rinfo : RestaurantInfo) (timers : TimerMap) (oid : String) (a : ℚ)
    (hps : order.payment_status ≠ PaymentStatus.success)
    (hid : extractOrderId payload = some oid)
    (hst : extractPaymentStatus payload = some "SUCCESS")
    (hamt : extractPaymentAmount payload = some a)
    (hmm : |a - order.total_price| > 2/100) :
    (webhookPaymentEvent payload order rinfo timers).order.status = OrderStatus.cancelled ∧
    (webhookPaymentEvent payload order rinfo timers).order.payment_status =
      PaymentStatus.failed ∧
    ∀ x ∈ (webhookPaymentEvent payload order rinfo timers).notices,
      x.isRestaurant = false := by
  have hvalid : (validatePaymentSecurity order a).valid = false := by
    simp only [validatePaymentSecurity, decide_eq_false_iff_not, not_le]
    exact hmm
  have hap : (validatePaymentSecurity order a).alreadyProcessed = false := by
    simp only [validatePaymentSecurity, decide_eq_false_iff_not]
    exact hps
  have hstep : webhookStatusMapping order (extractPaymentStatus payload)
      (extractPaymentAmount payload) =
      some (PaymentStatus.failed, OrderStatus.cancelled, false) := by
    rw [hst, hamt]
    simp [webhookStatusMapping, hvalid, hap]
  have hresult : webhookPaymentEvent payload order rinfo timers =
      webhookApply order rinfo timers oid PaymentStatus.failed OrderStatus.cancelled false := by
    simp [webhookPaymentEvent, hid, hps, hstep]
  rw [hresult]
  unfold webhookApply
  by_cases hc : (PaymentStatus.failed != order.payment_status ||
      OrderStatus.cancelled != order.status) = true
  · simp [hc, Notice.isRestaurant]
  · simp [hc, Notice.isRestaurant]

/-- Witness for C2: stored total 100, webhook SUCCESS with amount 200. -/
theorem webhook_amount_mismatch_cancels_witness :
    (webhookPaymentEvent wMismatch oBase riOn []).order.status = OrderStatus.cancelled ∧
    (webhookPaymentEvent wMismatch oBase riOn []).order.payment_status =
      PaymentStatus.failed ∧
    ∀ x ∈ (webhookPaymentEvent wMismatch oBase riOn []).notices,
      x.isRestaurant = false :=
  webhook_amount_mismatch_cancels wMismatch oBase riOn [] "5" 200
    (by decide) (by decide) rfl rfl (by norm_num [oBase])

/-- Concrete order row already marked failed and cancelled. -/
def oFailedCancelled : Order :=
  { oBase with payment_status := PaymentStatus.failed, status := OrderStatus.cancelled }

/-- Concrete webhook payload reporting PAID with no amount field. -/
def wPaidNoAmt : WebhookPayload :=
  { top_order_id := some "order_5", top_payment_status := some "PAID" }

/-- C7 counterexample: an order whose payment_status is already failed is
not short-circuited by the webhook path; a later PAID webhook mutates both
columns back to success and pending and notifies the restaurant. -/
theorem webhook_reprocesses_failed_order_cx :
    (webhookPaymentEvent wPaidNoAmt oFailedCancelled riOn []).order.payment_status =
      PaymentStatus.success ∧
    (webhookPaymentEvent wPaidNoAmt oFailedCancelled riOn []).order.status =
      OrderStatus.pending ∧
    Notice.restaurantNewOrder "r1" "5" ∈
      (webhookPaymentEvent wPaidNoAmt oFailedCancelled riOn []).notices := by
  decide

/-- C7 amended: only verifyPayment short-circuits an order whose
payment_status is already failed or cancelled (no mutation, no
notification, an already-failed response); the webhook path has no such
guard and re-processes the order, for instance a PAID webhook with no
amount field re-marks it success and pending and notifies the restaurant. -/
theorem failed_short_circuit_verify_only (order : Order) (payments : List PaymentAttempt)
    (payload : WebhookPayload) (rinfo : RestaurantInfo) (timers : TimerMap) (oid : String)
    (h : order.payment_status = PaymentStatus.failed ∨
         order.payment_status = PaymentStatus.cancelled) :
    verifyPayment order payments =
      { order := order, notices := [], timerStarted := false
        response := VResp.alreadyFailed } ∧
    (extractOrderId payload = some oid →
     extractPaymentStatus payload = some "PAID" →
     extractPaymentAmount payload = none →
     rinfo.is_online = true → rinfo.order_notifications = true →
     (webhookPaymentEvent payload order rinfo timers).order.payment_status =
        PaymentStatus.success ∧
     (webhookPaymentEvent payload order rinfo timers).order.status = OrderStatus.pending ∧
     Notice.restaurantNewOrder order.restaurant_uid oid ∈
       (webhookPaymentEvent payload order rinfo timers).notices) := by
  constructor
  · rcases h with h | h <;> simp [verifyPayment, h]
  · intro hid hst hamt hon hnot
    have hps : order.payment_status ≠ PaymentStatus.success := by
      rcases h with h | h <;> simp [h]
    have hstep : webhookStatusMapping order (extractPaymentStatus payload)
        (extractPaymentAmount payload) =
        some (PaymentStatus.success, OrderStatus.pending, true) := by
      rw [hst, hamt]
      simp [webhookStatusMapping]
    have hresult : webhookPaymentEvent payload order rinfo timers =
        webhookApply order rinfo timers oid PaymentStatus.success OrderStatus.pending true := by
      simp [webhookPaymentEvent, hid, hps, hstep]
    have hch : (PaymentStatus.success != order.payment_status ||
        OrderStatus.pending != order.status) = true := by
      rcases h with h | h <;> simp [h]
    rw [hresult]
    unfold webhookApply
    simp [hch, hon, hnot]

/-- Witness for the amended C7 at a concrete failed order and PAID webhook. -/
theorem failed_short_circuit_verify_only_witness :
    verifyPayment oFailedCancelled [] =
      { order := oFailedCancelled, notices := [], timerStarted := false
        response := VResp.alreadyFailed } ∧
    ((webhookPaymentEvent wPaidNoAmt oFailedCancelled riOn []).order.payment_status =
        PaymentStatus.success ∧
     (webhookPaymentEvent wPaidNoAmt oFailedCancelled riOn []).order.status =
        OrderStatus.pending ∧
     Notice.restaurantNewOrder "r1" "5" ∈
       (webhookPaymentEvent wPaidNoAmt oFailedCancelled riOn []).notices) :=
  ⟨(failed_short_circuit_verify_only oFailedCancelled [] wPaidNoAmt riOn [] "5"
      (Or.inl rfl)).1,
   (failed_short_circuit_verify_only oFailedCancelled [] wPaidNoAmt riOn [] "5"
      (Or.inl rfl)).2 (by decide) rfl rfl rfl rfl⟩

/-- C3 counterexample: a gateway-confirmed success on the verify-payment
path notifies the restaurant without any restaurant online or preference
input being consulted, leaves the order in status pending rather than
pending_restaurant_online, and starts no response-window timer, contrary to
the claimed behavior of both confirmation paths. -/
theorem verify_ignores_restaurant_state_cx :
    (verifyPayment oBase [{ payment_status := "SUCCESS", payment_amount := 100 }]).notices =
      [Notice.restaurantNewOrder "r1" "5", Notice.restaurantFCM "r1" "5"] ∧
    (verifyPayment oBase
      [{ payment_status := "SUCCESS", payment_amount := 100 }]).timerStarted = false ∧
    (verifyPayment oBase [{ payment_status := "SUCCESS", payment_amount := 100 }]).order.status =
      OrderStatus.pending := by
  have h : verifyPayment oBase [{ payment_status := "SUCCESS", payment_amount := 100 }] =
      { order := { oBase with status := OrderStatus.pending,
                              payment_status := PaymentStatus.success }
        notices := [Notice.restaurantNewOrder "r1" "5", Notice.restaurantFCM "r1" "5"]
        timerStarted := false, response := VResp.verified } := by
    norm_num [verifyPayment, oBase, List.find?]
    rfl
  rw [h]
  exact ⟨rfl, rfl, rfl⟩

/-- C3 amended: only the webhook confirmation path performs the restaurant
online/notifications check: on webhook-confirmed, amount-valid success it
starts the 90 second timer and notifies when the restaurant is online with
notifications enabled, and otherwise sets status pending_restaurant_online
with no timer and no restaurant notification; the verify-payment path
notifies unconditionally on confirmed success, starts no timer and never
sets pending_restaurant_online. -/
theorem notify_policy_check_webhook_only (payload : WebhookPayload) (order : Order)
    (rinfo : RestaurantInfo) (timers : TimerMap) (oid : String) (a : ℚ)
    (payments : List PaymentAttempt) (p : PaymentAttempt)
    (hps : order.payment_status = PaymentStatus.pending)
    (hid : extractOrderId payload = some oid)
    (hst : extractPaymentStatus payload = some "SUCCESS")
    (hamt : extractPaymentAmount payload = some a)
    (hv : |a - order.total_price| ≤ 2/100) :
    (rinfo.is_online = true → rinfo.order_notifications = true →
      (webhookPaymentEvent payload order rinfo timers).order.status = OrderStatus.pending ∧
      (webhookPaymentEvent payload order rinfo timers).timers =
        mapSet timers (JKey.str oid) 90 ∧
      Notice.restaurantNewOrder order.restaurant_uid oid ∈
        (webhookPaymentEvent payload order rinfo timers).notices) ∧
    (¬ (rinfo.is_online = true ∧ rinfo.order_notifications = true) →
      (webhookPaymentEvent payload order rinfo timers).order.status =
        OrderStatus.pending_restaurant_online ∧
      (webhookPaymentEvent payload order rinfo timers).timers = timers ∧
      ∀ x ∈ (webhookPaymentEvent payload order rinfo timers).notices,
        x.isRestaurant = false) ∧
    (payments.find? (fun q => q.payment_status = "SUCCESS") = some p →
     |p.payment_amount - order.total_price| ≤ 2/100 →
      (verifyPayment order payments).notices =
        [Notice.restaurantNewOrder order.restaurant_uid order.id,
         Notice.restaurantFCM order.restaurant_uid order.id] ∧
      (verifyPayment order payments).timerStarted = false ∧
      (verifyPayment order payments).order.status = OrderStatus.pending) := by
  have hps' : order.payment_status ≠ PaymentStatus.success := by simp [hps]
  have hvalid : (validatePaymentSecurity order a).valid = true := by
    simp only [validatePaymentSecurity, decide_eq_true_eq]
    exact hv
  have hstep : webhookStatusMapping order (extractPaymentStatus payload)
      (extractPaymentAmount payload) =
      some (PaymentStatus.success, OrderStatus.pending, true) := by
    rw [hst, hamt]
    simp [webhookStatusMapping, hvalid]
  have hresult : webhookPaymentEvent payload order rinfo timers =
      webhookApply order rinfo timers oid PaymentStatus.success OrderStatus.pending true := by
    simp [webhookPaymentEvent, hid, hps', hstep]
  have hch : (PaymentStatus.success != order.payment_status ||
      OrderStatus.pending != order.status) = true := by
    simp [hps]
  refine ⟨?_, ?_, ?_⟩
  · intro hon hnot
    rw [hresult]
    unfold webhookApply
    simp [hch, hon, hnot]
  · intro hoff
    rw [hresult]
    unfold webhookApply
    have : (rinfo.is_online ∧ rinfo.order_notifications) = False := by
      simp only [eq_iff_iff, iff_false]
      exact fun hc => hoff ⟨hc.1, hc.2⟩
    simp [hch, this, Notice.isRestaurant]
  · intro hfind hle
    have h1 : ¬ (order.payment_status = PaymentStatus.failed ∨
        order.payment_status = PaymentStatus.cancelled) := by
      simp [hps]
    simp [verifyPayment, hps', h1, hfind, not_lt.mpr hle]

/-- Witness for the amended C3: online restaurant, webhook SUCCESS with
matching amount 100, and a matching verify-payment attempt list. -/
theorem notify_policy_check_webhook_only_witness :
    ((webhookPaymentEvent
        { top_order_id := some "order_5", top_payment_status := some "SUCCESS"
          data_payment_payment_amount := some 100 } oBase riOn []).order.status =
      OrderStatus.pending ∧
     (webhookPaymentEvent
        { top_order_id := some "order_5", top_payment_status := some "SUCCESS"
          data_payment_payment_amount := some 100 } oBase riOn []).timers =
      mapSet [] (JKey.str "5") 90 ∧
     Notice.restaurantNewOrder "r1" "5" ∈
       (webhookPaymentEvent
        { top_order_id := some "order_5", top_payment_status := some "SUCCESS"
          data_payment_payment_amount := some 100 } oBase riOn []).notices) ∧
    ((verifyPayment oBase [{ payment_status := "SUCCESS", payment_amount := 100 }]).notices =
        [Notice.restaurantNewOrder "r1" "5", Notice.restaurantFCM "r1" "5"] ∧
     (verifyPayment oBase
        [{ payment_status := "SUCCESS", payment_amount := 100 }]).timerStarted = false ∧
     (verifyPayment oBase
        [{ payment_status := "SUCCESS", payment_amount := 100 }]).order.status =
      OrderStatus.pending) :=
  ⟨(notify_policy_check_webhook_only
      { top_order_id := some "order_5", top_payment_status := some "SUCCESS"
        data_payment_payment_amount := some 100 } oBase riOn [] "5" 100
      [{ payment_status := "SUCCESS", payment_amount := 100 }]
      { payment_status := "SUCCESS", payment_amount := 100 }
      rfl (by decide) rfl rfl (by norm_num [oBase])).1 rfl rfl,
   (notify_policy_check_webhook_only
      { top_order_id := some "order_5", top_payment_status := some "SUCCESS"
        data_payment_payment_amount := some 100 } oBase riOn [] "5" 100
      [{ payment_status := "SUCCESS", payment_amount := 100 }]
      { payment_status := "SUCCESS", payment_amount := 100 }
      rfl (by decide) rfl rfl (by norm_num [oBase])).2.2 (by decide) (by norm_num [oBase])⟩

/-- C10: a webhook whose extracted status is SUCCESS or PAID but which
contains no recognizable amount in any accepted payload shape is trusted
outright: the order is marked payment_status success and status pending and
the restaurant is notified (with the timer started), for every stored
total_price and with no amount validation. -/
theorem webhook_trusts_missing_amount (payload : WebhookPayload) (order : Order)
    (rinfo : RestaurantInfo) (timers : TimerMap) (oid st : String)
    (hps : order.payment_status ≠ PaymentStatus.success)
    (hid : extractOrderId payload = some oid)
    (hst : extractPaymentStatus payload = some st)
    (hsp : st = "SUCCESS" ∨ st = "PAID")
    (hamt : extractPaymentAmount payload = none)
    (hon : rinfo.is_online = true) (hnot : rinfo.order_notifications = true) :
    (webhookPaymentEvent payload order rinfo timers).order.payment_status =
      PaymentStatus.success ∧
    (webhookPaymentEvent payload order rinfo timers).order.status = OrderStatus.pending ∧
    Notice.restaurantNewOrder order.restaurant_uid oid ∈
      (webhookPaymentEvent payload order rinfo timers).notices ∧
    (webhookPaymentEvent payload order rinfo timers).timers =
      mapSet timers (JKey.str oid) 90 := by
  have hstep : webhookStatusMapping order (extractPaymentStatus payload)
      (extractPaymentAmount payload) =
      some (PaymentStatus.success, OrderStatus.pending, true) := by
    rw [hst, hamt]
    rcases hsp with h | h <;> subst h <;> simp [webhookStatusMapping]
  have hresult : webhookPaymentEvent payload order rinfo timers =
      webhookApply order rinfo timers oid PaymentStatus.success OrderStatus.pending true := by
    simp [webhookPaymentEvent, hid, hps, hstep]
  have hne : PaymentStatus.success ≠ order.payment_status := fun hcontra => hps hcontra.symm
  have hch : (PaymentStatus.success != order.payment_status ||
      OrderStatus.pending != order.status) = true := by
    simp [bne_iff_ne, hne]
  rw [hresult]
  unfold webhookApply
  simp [hch, hon, hnot]

/-- Witness for C10: PAID webhook without amount on a pending order. -/
theorem webhook_trusts_missing_amount_witness :
    (webhookPaymentEvent wPaidNoAmt oBase riOn []).order.payment_status =
      PaymentStatus.success ∧
    (webhookPaymentEvent wPaidNoAmt oBase riOn []).order.status = OrderStatus.pending ∧
    Notice.restaurantNewOrder "r1" "5" ∈
      (webhookPaymentEvent wPaidNoAmt oBase riOn []).notices ∧
    (webhookPaymentEvent wPaidNoAmt oBase riOn []).timers =
      mapSet [] (JKey.str "5") 90 :=
  webhook_trusts_missing_amount wPaidNoAmt oBase riOn [] "5" "PAID"
    (by decide) (by decide) rfl (Or.inr rfl) rfl rfl rfl

/-- C4 counterexample: the generic status-update endpoint lets a delivered
(terminal) order move back to preparing, so terminal states can be left and
the forward-only progression is not enforced by this endpoint. -/
theorem generic_update_leaves_terminal_cx :
    updateOrderStatus { oBase with status := OrderStatus.delivered } "preparing" =
      UpdateResult.updated { oBase with status := OrderStatus.preparing } := by
  decide

/-- C4 amended: the generic status-update endpoint enforces only the
pending guards: from pending, preparing and rejected are refused (the
accept and reject endpoints must be used) and every target other than
cancelled is refused, while cancelled is written; from every non-pending
status, any status string of the allowed set is written unconditionally,
including moves out of delivered, cancelled and rejected and moves out of
payment_pending without payment confirmation. -/
theorem generic_update_transition_table (o : Order) (s : String) :
    (o.status = OrderStatus.pending ∧ (s = "preparing" ∨ s = "rejected") →
      updateOrderStatus o s = UpdateResult.useAcceptReject) ∧
    (o.status = OrderStatus.pending ∧ genericStatuses.contains s = true ∧
        s ≠ "preparing" ∧ s ≠ "rejected" ∧ s ≠ "cancelled" →
      updateOrderStatus o s = UpdateResult.pendingRestricted) ∧
    (o.status = OrderStatus.pending ∧ s = "cancelled" →
      updateOrderStatus o s =
        UpdateResult.updated { o with status := OrderStatus.cancelled }) ∧
    (o.status ≠ OrderStatus.pending ∧ genericStatuses.contains s = true →
      updateOrderStatus o s =
        UpdateResult.updated { o with status := statusOfString s }) := by
  refine ⟨?_, ?_, ?_, ?_⟩
  · rintro ⟨hp, hs | hs⟩ <;> subst hs <;>
      simp [updateOrderStatus, hp, genericStatuses, statusOfString]
  · rintro ⟨hp, hcon, h1, h2, h3⟩
    have hmem : s ∈ genericStatuses := by simpa using hcon
    simp [updateOrderStatus, hmem, hp, h1, h2, h3]
  · rintro ⟨hp, hs⟩
    subst hs
    simp [updateOrderStatus, hp, genericStatuses, statusOfString]
  · rintro ⟨hp, hcon⟩
    have hmem : s ∈ genericStatuses := by simpa using hcon
    simp [updateOrderStatus, hmem, hp]

/-- Witness for the amended C4 at concrete orders and statuses. -/
theorem generic_update_transition_table_witness :
    updateOrderStatus { oBase with status := OrderStatus.pending } "preparing" =
      UpdateResult.useAcceptReject ∧
    updateOrderStatus { oBase with status := OrderStatus.pending } "delivered" =
      UpdateResult.pendingRestricted ∧
    updateOrderStatus { oBase with status := OrderStatus.payment_pending } "delivered" =
      UpdateResult.updated { oBase with status := OrderStatus.delivered } :=
  ⟨(generic_update_transition_table { oBase with status := OrderStatus.pending }
      "preparing").1 ⟨rfl, Or.inl rfl⟩,
   (generic_update_transition_table { oBase with status := OrderStatus.pending }
      "delivered").2.1 ⟨rfl, by decide, by decide, by decide, by decide⟩,
   (generic_update_transition_table { oBase with status := OrderStatus.payment_pending }
      "delivered").2.2.2 ⟨by decide, by decide⟩⟩

/-- Concrete menu: item 1 is available at price 480, nothing else exists. -/
def menu480 : Nat → Option ℚ := fun n => if n = 1 then (some 480 : Option ℚ) else none

/-- Concrete submitted line items: one unit of item 1. -/
def items480 : List OrderItemReq := [{ menu_item_id := 1, quantity := 1 }]

/-- C5: under the duplicate flow's fee policy (the one matching the spec
scenario), a recomputed subtotal of 480 yields delivery fee 20, packing fee
5, GST 24, platform fee 0 and total 529; submitting total_amount 529
succeeds and submitting 520 fails with the total-mismatch error. -/
theorem legacy_fee_scenario_480 :
    LegacyFlow.expectedDeliveryFee 480 = 20 ∧
    LegacyFlow.expectedPackingFee = 5 ∧
    LegacyFlow.expectedGst 480 = 24 ∧
    LegacyFlow.expectedPlatformFee 480 = 0 ∧
    LegacyFlow.expectedTotal 480 = 529 ∧
    LegacyFlow.createOrder true true menu480 items480 (some 480) 529 true =
      Except.ok { status := OrderStatus.payment_pending
                  payment_status := PaymentStatus.pending, total_price := 529 } ∧
    LegacyFlow.createOrder true true menu480 items480 (some 480) 520 true =
      Except.error CreateError.totalMismatch := by
  have hcs : calcSubtotal menu480 items480 = some 480 := by
    norm_num [calcSubtotal, menu480, items480]
  have hfees : LegacyFlow.expectedTotal 480 = 529 := by
    norm_num [LegacyFlow.expectedTotal, LegacyFlow.expectedDeliveryFee,
      LegacyFlow.expectedPackingFee, LegacyFlow.expectedGst, LegacyFlow.expectedPlatformFee]
  refine ⟨by norm_num [LegacyFlow.expectedDeliveryFee], rfl,
    by norm_num [LegacyFlow.expectedGst], by norm_num [LegacyFlow.expectedPlatformFee],
    hfees, ?_, ?_⟩
  · norm_num [LegacyFlow.createOrder, hcs, hfees]
  · norm_num [LegacyFlow.createOrder, hcs, hfees]

/-- C6: for a valid submission (restaurant exists and is online, customer
exists, all line items resolve, gateway reachable) the main creation flow
fails with the subtotal-mismatch error when the declared subtotal deviates
from the recomputed one by more than 0.01, fails with the total-mismatch
error when the declared total deviates from the expected total by more than
0.02, and otherwise persists an order in status payment_pending with
payment_status pending; an error result means the transaction rolled back
and nothing was persisted. -/
theorem createOrder_price_validation (menu : Nat → Option ℚ)
    (items : List OrderItemReq) (subtotal : Option ℚ) (total_amount : ℚ) (cs : ℚ)
    (hcs : calcSubtotal menu items = some cs) :
    (|cs - subtotal.getD 0| > 1/100 →
      MainFlow.createOrder true true true menu items subtotal total_amount true =
        Except.error CreateError.subtotalMismatch) ∧
    (|cs - subtotal.getD 0| ≤ 1/100 →
     |MainFlow.expectedTotal cs - total_amount| > 2/100 →
      MainFlow.createOrder true true true menu items subtotal total_amount true =
        Except.error CreateError.totalMismatch) ∧
    (|cs - subtotal.getD 0| ≤ 1/100 →
     |MainFlow.expectedTotal cs - total_amount| ≤ 2/100 →
      MainFlow.createOrder true true true menu items subtotal total_amount true =
        Except.ok { status := OrderStatus.payment_pending
                    payment_status := PaymentStatus.pending
                    total_price := total_amount }) := by
  have hunfold : MainFlow.createOrder true true true menu items subtotal total_amount true =
      (if |cs - subtotal.getD 0| > 1/100 then Except.error CreateError.subtotalMismatch
       else if |MainFlow.expectedTotal cs - total_amount| > 2/100 then
         Except.error CreateError.totalMismatch
       else Except.ok { status := OrderStatus.payment_pending
                        payment_status := PaymentStatus.pending
                        total_price := total_amount }) := by
    unfold MainFlow.createOrder
    rw [hcs]
    simp
  refine ⟨?_, ?_, ?_⟩
  · intro h
    rw [hunfold, if_pos h]
  · intro h1 h2
    rw [hunfold, if_neg (not_lt.mpr h1), if_pos h2]
  · intro h1 h2
    rw [hunfold, if_neg (not_lt.mpr h1), if_neg (not_lt.mpr h2)]

/-- Witness for C6: price 480 menu, declared subtotal 480, total 504 (the
main flow's expected total for subtotal 480) succeeds; total 520 fails. -/
theorem createOrder_price_validation_witness :
    MainFlow.createOrder true true true menu480 items480 (some 480) 504 true =
      Except.ok { status := OrderStatus.payment_pending
                  payment_status := PaymentStatus.pending, total_price := 504 } ∧
    MainFlow.createOrder true true true menu480 items480 (some 480) 520 true =
      Except.error CreateError.totalMismatch :=
  ⟨(createOrder_price_validation menu480 items480 (some 480) 504 480
      (by norm_num [calcSubtotal, menu480, items480])).2.2
      (by norm_num)
      (by norm_num [MainFlow.expectedTotal, MainFlow.expectedDeliveryFee,
        MainFlow.expectedPackingFee, MainFlow.expectedGst, MainFlow.expectedPlatformFee]),
   (createOrder_price_validation menu480 items480 (some 480) 520 480
      (by norm_num [calcSubtotal, menu480, items480])).2.1
      (by norm_num)
      (by norm_num [MainFlow.expectedTotal, MainFlow.expectedDeliveryFee,
        MainFlow.expectedPackingFee, MainFlow.expectedGst, MainFlow.expectedPlatformFee])⟩

/-- C8: the auto-reject callback mutates nothing and notifies nobody unless
the order is still pending; when it is still pending it performs the
rejected transition with the system reason and the auto_rejected flag and
notifies both restaurant and customer; in particular after a completed
accept the callback firing leaves the accepted order untouched. -/
theorem autoReject_only_when_pending (order : Order) (timers : TimerMap)
    (restaurant_uid : String) :
    (order.status ≠ OrderStatus.pending →
      autoRejectOrder order timers =
        { order := order, notices := [], timers := timers }) ∧
    (order.status = OrderStatus.pending →
      (autoRejectOrder order timers).order.status = OrderStatus.rejected ∧
      (autoRejectOrder order timers).order.auto_rejected = true ∧
      (autoRejectOrder order timers).order.rejection_reason =
        some "Order was not accepted within the time limit" ∧
      (autoRejectOrder order timers).notices =
        [Notice.restaurantAutoRejected order.restaurant_uid order.id,
         Notice.customerStatusUpdated order.customer_uid order.id]) ∧
    (∀ res, acceptOrder order restaurant_uid timers = some res →
      autoRejectOrder res.order res.timers =
        { order := res.order, notices := [], timers := res.timers }) := by
  refine ⟨?_, ?_, ?_⟩
  · intro h
    simp [autoRejectOrder, h]
  · intro h
    simp [autoRejectOrder, h]
  · intro res hres
    unfold acceptOrder at hres
    by_cases hcond : order.restaurant_uid = restaurant_uid ∧
        order.status = OrderStatus.pending
    · rw [if_pos hcond] at hres
      have hr := Option.some.inj hres
      have hstatus : res.order.status = OrderStatus.preparing := by
        rw [hr.symm]
      simp [autoRejectOrder, hstatus]
    · rw [if_neg hcond] at hres
      exact absurd hres (by simp)

/-- Witness for C8: a pending order is auto-rejected; the same order after
accept is left untouched by the callback. -/
theorem autoReject_only_when_pending_witness :
    ((autoRejectOrder { oBase with status := OrderStatus.pending } []).order.status =
        OrderStatus.rejected ∧
     (autoRejectOrder { oBase with status := OrderStatus.pending } []).order.auto_rejected =
        true ∧
     (autoRejectOrder { oBase with status := OrderStatus.pending } []).order.rejection_reason =
        some "Order was not accepted within the time limit" ∧
     (autoRejectOrder { oBase with status := OrderStatus.pending } []).notices =
        [Notice.restaurantAutoRejected "r1" "5", Notice.customerStatusUpdated "c1" "5"]) ∧
    autoRejectOrder { oBase with status := OrderStatus.preparing } [] =
      { order := { oBase with status := OrderStatus.preparing }, notices := [], timers := [] } :=
  ⟨(autoReject_only_when_pending { oBase with status := OrderStatus.pending } [] "r1").2.1
      rfl,
   (autoReject_only_when_pending { oBase with status := OrderStatus.preparing } [] "r1").1
      (by decide)⟩

/-- C9 as a code bug: the webhook registers the auto-reject timer under the
string key "5" while the accept handler queries and deletes the numeric key
Number.parseInt of the id, which under SameValueZero never matches the
string key; hence a completed accept leaves the webhook-registered timer
entry in the map instead of cancelling it. -/
theorem accept_timer_key_type_mismatch :
    (webhookPaymentEvent wPaidNoAmt oBase riOn []).timers = [(JKey.str "5", 90)] ∧
    acceptOrder { oBase with status := OrderStatus.pending } "r1" [(JKey.str "5", 90)] =
      some { order := { oBase with status := OrderStatus.preparing }
             timers := [(JKey.str "5", 90)]
             notices := [Notice.restaurantAccepted "r1" "5",
                         Notice.customerStatusUpdated "c1" "5"] } ∧
    mapHas [(JKey.str "5", 90)] (JKey.num 5) = false := by
  decide
